import Mathlib

/-!
Verification development for the funding-rate arbitrage bot
(`funding_arbitrage_bot`).  The Python source is shallowly embedded:

* Python floats are modelled as `ℚ` (all the decision logic compares and
  scales finitely many decimal constants, so exact rational arithmetic is a
  faithful model of the branching behaviour under scrutiny);
* `None`-able values are `Option`s; dictionary lookups that can raise are
  explicit `Except` computations; a raised-and-caught Python exception is an
  explicit error value;
* every embedded definition carries a comment naming the source function and
  the line range it transcribes.
-/

/-- Python side strings occurring in the engine: `"BUY"`, `"SELL"`, the
literal string `"NONE"` produced by `check_direction_consistency_multi`, and
the `"UNKNOWN"` default of `position.get("side", "UNKNOWN")`.  A Python
`None` side is modelled as `Option SideT` being `none`. -/
inductive SideT where
  | BUY
  | SELL
  | NONE_S
  | UNKNOWN
deriving DecidableEq, Repr, Fintype

/-- Condition-type strings of `open_conditions` / `close_conditions`
(`condition_type` key): `"any" | "all" | "funding_only" | "price_only"`;
`other` stands for any unrecognised string (no branch of the `if`/`elif`
chain fires for it). -/
inductive CondType where
  | any
  | all
  | funding_only
  | price_only
  | other
deriving DecidableEq, Repr

/-- Python exceptions relevant to the engine paths we verify. -/
inductive PyExn where
  | keyError (k : String)
  | valueError
  | nameError (n : String)
  | typeError
  | zeroDivisionError
deriving DecidableEq, Repr

/-- Truthiness of an optional number in Python (`if cx_price and ...`):
`None` is falsy and so is `0`. -/
def optTruthy (x : Option ℚ) : Bool :=
  match x with
  | none => false
  | some v => v ≠ 0

/-! ### utils/helpers.py -/

/-- Transcribes `utils/helpers.py::get_backpack_symbol` (lines 172-182):
`f"{base_symbol}_USDC_PERP"`. -/
def get_backpack_symbol (symbol : String) : String :=
  symbol ++ "_USDC_PERP"

/-- Transcribes `utils/helpers.py::get_hyperliquid_symbol` (lines 159-169). -/
def get_hyperliquid_symbol (symbol : String) : String :=
  symbol

/-- The engine imports `get_coinex_symbol` from the package's helpers module,
which is not present under `src/`.  Modelled from the engine's own usage and
comments (`arbitrage_engine.py` lines 762, 1126, 1677: "CoinEx使用基础币种作为
符号", i.e. CoinEx uses the base symbol itself). -/
def get_coinex_symbol (symbol : String) : String :=
  symbol

/-- Transcribes `utils/helpers.py::calculate_funding_diff` (lines 97-125).
Takes `bp_funding` (documented as Backpack's 8-hour rate) and `hl_funding`
(documented as Hyperliquid's 1-hour rate), multiplies the second argument by
8 and returns `(abs diff, sign of diff)`. -/
def calculate_funding_diff (bp_funding hl_funding : ℚ) : ℚ × Int :=
  let adjusted_hl_funding := hl_funding * 8
  let diff := bp_funding - adjusted_hl_funding
  let sign : Int := if diff > 0 then 1 else if diff < 0 then -1 else 0
  (|diff|, sign)

/-! ### core/data_manager.py -/

/-- One venue's slot of `DataManager.latest_data[symbol]` (initialised in
`_init_data_structure`, lines 100-124): price, funding rate and the two
timestamps, each possibly `None`.  Timestamps are modelled as rational
seconds; `now - ts` is the age in seconds. -/
structure VenueData where
  price : Option ℚ
  funding_rate : Option ℚ
  price_timestamp : Option ℚ
  funding_timestamp : Option ℚ
deriving DecidableEq, Repr

/-- The per-venue freshness check of `DataManager.is_data_valid`
(lines 536-579, identical for each venue): the check fails iff any of the
four fields is `None` or either age exceeds `max_age_seconds`.  Note the
source uses `age > max_age_seconds` to invalidate, so data exactly
`max_age_seconds` old still passes. -/
def venue_check (now max_age_seconds : ℚ) (d : VenueData) : Bool :=
  match d.price, d.funding_rate, d.price_timestamp, d.funding_timestamp with
  | some _, some _, some pts, some fts =>
      ¬(now - pts > max_age_seconds) ∧ ¬(now - fts > max_age_seconds)
  | _, _, _, _ => false

/-- The claim's wording of the freshness check: price, funding rate and both
timestamps present and *younger than* the max-age parameter (strict
inequality).  Written from the claim text, to compare with `venue_check`. -/
def venue_fresh_claim (now max_age_seconds : ℚ) (d : VenueData) : Bool :=
  match d.price, d.funding_rate, d.price_timestamp, d.funding_timestamp with
  | some _, some _, some pts, some fts =>
      now - pts < max_age_seconds ∧ now - fts < max_age_seconds
  | _, _, _, _ => false

/-- The symbol's record in `latest_data`: `_init_data_structure` always
creates all three venue slots for every configured symbol. -/
structure SymbolData where
  backpack : VenueData
  hyperliquid : VenueData
  coinex : VenueData
deriving DecidableEq, Repr

/-- Transcribes `DataManager.is_data_valid` (lines 514-609).
`present` models `symbol in self.latest_data` (line 525); the three `*Avail`
flags model `self.backpack_available` etc.  The per-venue checks default to
`True` when the venue is unavailable (lines 532-534); the counting and the
0/1/many-venue dispatch follow lines 581-609, including the (unreachable)
fall-through of the one-venue branch into the final `>= 2` return. -/
def is_data_valid (bpAvail hlAvail cxAvail : Bool) (present : Bool)
    (data : SymbolData) (now max_age_seconds : ℚ) : Bool :=
  if ¬present then false
  else
    let backpack_check := if bpAvail then venue_check now max_age_seconds data.backpack else true
    let hyperliquid_check := if hlAvail then venue_check now max_age_seconds data.hyperliquid else true
    let coinex_check := if cxAvail then venue_check now max_age_seconds data.coinex else true
    let available_exchanges_count : Nat :=
      (if bpAvail then 1 else 0) + (if hlAvail then 1 else 0) + (if cxAvail then 1 else 0)
    let valid_exchanges_count : Nat :=
      (if bpAvail then (if backpack_check then 1 else 0) else 0)
      + (if hlAvail then (if hyperliquid_check then 1 else 0) else 0)
      + (if cxAvail then (if coinex_check then 1 else 0) else 0)
    if available_exchanges_count = 0 then false
    else if available_exchanges_count = 1 then
      if bpAvail then backpack_check
      else if hlAvail then hyperliquid_check
      else if cxAvail then coinex_check
      else valid_exchanges_count ≥ 2
    else valid_exchanges_count ≥ 2

/-! ### core/arbitrage_engine.py : _analyze_orderbook (lines 511-674) -/

/-- One raw order-book level as the source tolerates them (lines 546-560):
a dict with `"px"`/`"sz"`, a dict with `"price"`/`"size"`, a list of at
least two numbers, or anything else (logged and skipped). -/
inductive OBLevel where
  | pxsz (px sz : ℚ)
  | priceSize (price size : ℚ)
  | arr (price size : ℚ)
  | unknown
deriving DecidableEq, Repr

/-- Level-shape normalisation, lines 547-560: the three recognised shapes
become a `[price, size]` pair, unrecognised levels are dropped. -/
def convLevel : OBLevel → Option (ℚ × ℚ)
  | .pxsz px sz => some (px, sz)
  | .priceSize p s => some (p, s)
  | .arr p s => some (p, s)
  | .unknown => none

/-- Stable insertion (used to model Python's stable `sorted`): `x` goes in
front of the first element it compares `le` to. -/
def insBy (le : ℚ × ℚ → ℚ × ℚ → Bool) (x : ℚ × ℚ) : List (ℚ × ℚ) → List (ℚ × ℚ)
  | [] => [x]
  | y :: ys => if le x y then x :: y :: ys else y :: insBy le x ys

/-- Stable sort via right fold of stable insertion; with a non-strict
comparison this reproduces Python's stable `sorted`. -/
def sortBy (le : ℚ × ℚ → ℚ × ℚ → Bool) (l : List (ℚ × ℚ)) : List (ℚ × ℚ) :=
  l.foldr (insBy le) []

/-- Sorting of the converted book, lines 567-575: bids descending by price,
asks ascending by price. -/
def sortBook (isBids : Bool) (l : List (ℚ × ℚ)) : List (ℚ × ℚ) :=
  if isBids then sortBy (fun x y => x.1 ≥ y.1) l
  else sortBy (fun x y => x.1 ≤ y.1) l

/-- The book walk, lines 582-621.  Carries `amount_filled`,
`weighted_price`, `levels_checked` and the loop variable `level_price`
(which Python leaks out of the loop; the book is non-empty when the walk is
entered so it is always defined afterwards).  Dividing by a zero
`level_price` (line 601) is a `ZeroDivisionError`.  Returns
`(amount_filled, weighted_price, level_price)`. -/
def walkBook (amount_usd : ℚ) :
    List (ℚ × ℚ) → ℚ → ℚ → Nat → ℚ → Except PyExn (ℚ × ℚ × ℚ)
  | [], amount_filled, weighted_price, _, level_price =>
      .ok (amount_filled, weighted_price, level_price)
  | (level_price, level_size) :: rest, amount_filled, weighted_price, levels_checked, _ =>
      let level_value := level_price * level_size
      if amount_filled + level_value ≥ amount_usd then
        let remaining := amount_usd - amount_filled
        if level_price = 0 then .error .zeroDivisionError
        else
          let size_needed := remaining / level_price
          .ok (amount_usd, weighted_price + level_price * size_needed, level_price)
      else
        let weighted_price := weighted_price + level_price * level_size
        let amount_filled := amount_filled + level_value
        let levels_checked := levels_checked + 1
        if levels_checked ≥ 10 then .ok (amount_filled, weighted_price, level_price)
        else walkBook amount_usd rest amount_filled weighted_price levels_checked level_price

/-- The post-walk computation of `_analyze_orderbook`, lines 623-668:
shortfall handling (below 80 % fill returns the capped fill-ratio slippage,
line 634-638), the corrected average-price formula of line 646, the final
slippage and its clamp to `[0.01, 0.5]` (percent units). -/
def slippageFromWalk (isBids : Bool) (amount_usd price : ℚ)
    (w : ℚ × ℚ × ℚ) : Except PyExn ℚ :=
  let amount_filled := w.1
  let weighted_price := w.2.1
  let level_price := w.2.2
  let shortfall : Bool := amount_filled < amount_usd
  let fill_percentage := if amount_usd = 0 then 0 else amount_filled / amount_usd * 100
  if shortfall ∧ fill_percentage < 80 then
    .ok (min 0.2 ((100 - fill_percentage) / 100))
  else if amount_filled > 0 then
    if level_price = 0 then .error .zeroDivisionError
    else
      let average_price := weighted_price / (amount_filled / level_price)
      if price = 0 then .error .zeroDivisionError
      else
        let slippage :=
          if isBids then (price - average_price) / price * 100
          else (average_price - price) / price * 100
        .ok (max 0.01 (min 0.5 |slippage|))
  else .ok 0.1

/-- Transcribes `ArbitrageEngine._analyze_orderbook` (lines 511-674).
The order book argument is the value of `orderbook[side]`: outer `none` is a
falsy book or a missing side key (lines 530-536), an empty or
unconvertible level list returns the default (lines 538-540, 562-565).
The whole body runs under `try`; any raised exception returns the 0.1
default (lines 670-674). -/
def analyze_orderbook (ob : Option (List OBLevel)) (isBids : Bool)
    (amount_usd price : ℚ) : ℚ :=
  match ob with
  | none => 0.1
  | some levels =>
    if levels = [] then 0.1
    else
      let book_side := levels.filterMap convLevel
      if book_side = [] then 0.1
      else
        let sorted := sortBook isBids book_side
        match walkBook amount_usd sorted 0 0 0 0 >>= slippageFromWalk isBids amount_usd price with
        | .ok s => s
        | .error _ => 0.1

/-! ### core/arbitrage_engine.py : direction consistency (lines 1312-1479) -/

/-- Stable insertion for `(weighted rate, exchange name)` pairs, ascending
by rate. -/
def insRate (x : ℚ × String) : List (ℚ × String) → List (ℚ × String)
  | [] => [x]
  | y :: ys => if x.1 ≤ y.1 then x :: y :: ys else y :: insRate x ys

/-- Stable ascending sort by rate, modelling
`funding_rates.sort(key=lambda x: x[0])` (line 1358) — Python's sort is
stable. -/
def sortRates (l : List (ℚ × String)) : List (ℚ × String) :=
  l.foldr insRate []

/-- The ranking step of `check_direction_consistency_multi`
(lines 1350-1390), written over a list of `(weighted rate, exchange)` pairs:
sort ascending, the exchange named first is assigned `"BUY"`, the exchange
named last `"SELL"`, every other exchange `"NONE"` (the comparisons are by
exchange name, as in the source loop).  The source applies this to the fixed
three-venue list; the same algorithm on a two-venue list is the
specialisation the spec calls the reduction to the 2-venue case. -/
def rankAssign (l : List (ℚ × String)) : List (String × SideT) :=
  let sorted := sortRates l
  match sorted.head?, sorted.getLast? with
  | some lo, some hi =>
      sorted.map (fun p =>
        (p.2, if p.2 = lo.2 then SideT.BUY else if p.2 = hi.2 then SideT.SELL else SideT.NONE_S))
  | _, _ => []

/-- Dictionary lookup `preferred_sides.get(key)` over the assignment list. -/
def lookupSide (l : List (String × SideT)) (k : String) : Option SideT :=
  (l.find? (fun p => p.1 = k)).map Prod.snd

/-- The opposite-pair check of `check_direction_consistency_multi`
(lines 1393-1405): some pair of venues has both sides present in the dict,
neither `"NONE"`, and different from each other. -/
def hasOppositeDirections (bp hl cx : Option SideT) : Bool :=
  let pairOpp : Option SideT → Option SideT → Bool := fun a b =>
    match a, b with
    | some x, some y => x ≠ SideT.NONE_S ∧ y ≠ SideT.NONE_S ∧ x ≠ y
    | _, _ => false
  pairOpp bp hl || pairOpp bp cx || pairOpp hl cx

/-- Transcribes `ArbitrageEngine.check_direction_consistency_multi`
(lines 1312-1414): weight the three rates (`funding_rate` config weights,
default 1.0), rank them, and report whether at least one pair is opposite
plus the per-venue preferred sides. -/
def check_direction_consistency_multi (bp_weight hl_weight cx_weight : ℚ)
    (bp_funding adjusted_hl_funding cx_funding : ℚ) :
    Bool × List (String × SideT) :=
  let preferred_sides := rankAssign
    [(bp_funding * bp_weight, "backpack"),
     (adjusted_hl_funding * hl_weight, "hyperliquid"),
     (cx_funding * cx_weight, "coinex")]
  (hasOppositeDirections (lookupSide preferred_sides "backpack")
    (lookupSide preferred_sides "hyperliquid") (lookupSide preferred_sides "coinex"),
   preferred_sides)

/-- The funding-rate side rule of `ArbitrageEngine.check_direction_consistency`
(lines 1447-1468): both rates negative — the larger-magnitude venue buys;
both positive — the larger-value venue sells; otherwise the classic rule,
positive sells, non-positive buys.  Returns `(funding_bp_side,
funding_hl_side)`. -/
def funding_sides (bp_funding hl_funding : ℚ) : SideT × SideT :=
  if bp_funding < 0 ∧ hl_funding < 0 then
    if |bp_funding| > |hl_funding| then (.BUY, .SELL) else (.SELL, .BUY)
  else if bp_funding > 0 ∧ hl_funding > 0 then
    if bp_funding > hl_funding then (.SELL, .BUY) else (.BUY, .SELL)
  else
    ((if bp_funding > 0 then .SELL else .BUY), (if hl_funding > 0 then .SELL else .BUY))

/-- Transcribes `ArbitrageEngine.check_direction_consistency`
(lines 1416-1479): the price-difference side rule (lines 1437-1445), the
funding side rule, and the consistency verdict that both agree
(lines 1471-1472).  Returns `(is_consistent, funding_bp_side,
funding_hl_side)`. -/
def check_direction_consistency (bp_price hl_price bp_funding hl_funding : ℚ) :
    Bool × SideT × SideT :=
  let priceSides : SideT × SideT :=
    if bp_price - hl_price > 0 then (.SELL, .BUY) else (.BUY, .SELL)
  let fs := funding_sides bp_funding hl_funding
  (priceSides.1 = fs.1 ∧ priceSides.2 = fs.2, fs.1, fs.2)

/-- The N-venue ranking rule of `check_direction_consistency_multi`
specialised to exactly two available venues (Backpack and Hyperliquid, with
their weighted rates): the same `rankAssign` algorithm on a two-element
list, plus the same opposite-pair verdict.  Returns
`(consistent, bp side, hl side)`. -/
def rank2 (wbp whl : ℚ) : Bool × Option SideT × Option SideT :=
  let sides := rankAssign [(wbp, "backpack"), (whl, "hyperliquid")]
  (hasOppositeDirections (lookupSide sides "backpack") (lookupSide sides "hyperliquid") none,
   lookupSide sides "backpack", lookupSide sides "hyperliquid")

/-! ### core/arbitrage_engine.py : _check_open_conditions_without_execution
(lines 1089-1310) -/

/-- The `open_conditions` configuration block with the `.get` defaults used
in `_check_open_conditions_without_execution` (lines 1139-1140, 1221-1230,
1243-1244). -/
structure OpenConds where
  max_slippage_percent : ℚ := 0.15
  ignore_high_slippage : Bool := false
  condition_type : CondType := .funding_only
  min_price_diff_percent : ℚ := 0.2
  max_price_diff_percent : ℚ := 1.0
  min_funding_diff : ℚ := 0.00001
  check_direction_consistency : Bool := false
deriving Repr

/-- One entry of the top-level `trading_pairs` config list as consumed by
the engine. -/
structure TradingPair where
  symbol : String
  max_position_size : Option ℚ := none
  min_volume : Option ℚ := none
  price_precision : Option ℕ := none
  tick_size : Option ℚ := none
deriving Repr

/-- The reason strings `_check_open_conditions_without_execution` can return
(modelled as tags; the source interpolates numbers into them). -/
inductive OpenReason where
  | hasPosition        -- "已有持仓"
  | slippageTooHigh    -- "滑点过高(...)"
  | maxPositionsLimit  -- "已达到全局最大持仓数量限制(...)"
  | noPairConfig       -- "未找到...的交易对配置"
  | maxSizeReached     -- "...已达到或超过最大持仓限制(...)"
  | conditionVerdict   -- the four condition_type reason strings
deriving DecidableEq, Repr

/-- Base symbol of a Backpack position key, line 1166:
`pos_symbol.split('_')[0]`. -/
def baseOfBpSymbol (s : String) : String :=
  (s.splitOn "_").headD ""

/-- The distinct-symbol position count of lines 1162-1178: a Python `set`
built from the Backpack base symbols, the Hyperliquid keys, and the CoinEx
keys. -/
def positionSymbolCount (bp_positions hl_positions cx_positions : List String) : Nat :=
  ((bp_positions.map baseOfBpSymbol) ++ hl_positions ++ cx_positions).dedup.length

/-- Result of the open check: the `(should_open, reason, available_size)`
triple (the source's third component is `0`, `None` or the available size —
hence `Option ℚ`), plus the write to `self.preferred_sides[symbol]`
performed at lines 1266-1278 (`none` = no write). -/
structure OpenDecision where
  should_open : Bool
  reason : OpenReason
  available_size : Option ℚ
  preferred_write : Option (Option SideT × Option SideT × Option SideT)
deriving Repr

/-- Transcribes `ArbitrageEngine._check_open_conditions_without_execution`
(lines 1089-1310).  Inputs mirror the parameters plus the configuration and
the market-data slippage lookup (`market_data[symbol]["total_slippage"]`,
default 0.5, lines 1143-1146).  The position maps are modelled by their key
sets.  A raised exception is an `Except.error`; the only raise site is the
`NameError` on `preferred_cx_side` (line 1277), which is reached exactly
when the direction check runs its two-venue branch and reports consistency:
`preferred_cx_side` is assigned only in the three-venue branch (line 1258).
Note the preferred-sides dictionary write (line 1271) happens before that
raise, so the write is reported alongside the error. -/
def check_open_conditions (oc : OpenConds) (max_positions_count : Nat)
    (trading_pairs : List TradingPair)
    (bp_weight hl_weight cx_weight : ℚ)
    (symbol : String)
    (bp_price hl_price bp_funding adjusted_hl_funding : ℚ)
    (price_diff_percent funding_diff : ℚ)
    (bp_positions hl_positions : List String)
    (cx_price cx_funding : Option ℚ)
    (cx_positions : List String)
    (total_slippage : Option ℚ) :
    Except (PyExn × (Option SideT × Option SideT × Option SideT)) OpenDecision :=
  -- lines 1124-1133: existing-position rejection
  let bp_symbol := get_backpack_symbol symbol
  let cx_symbol := symbol
  let has_position :=
    (bp_symbol ∈ bp_positions) ∨ (symbol ∈ hl_positions)
    ∨ (cx_positions ≠ [] ∧ cx_symbol ∈ cx_positions)
  if has_position then .ok ⟨false, .hasPosition, some 0, none⟩
  else
    -- lines 1135-1154: slippage gate
    let ts := total_slippage.getD 0.5
    let slippage_condition_met := oc.ignore_high_slippage ∨ ts ≤ oc.max_slippage_percent
    if ¬slippage_condition_met then .ok ⟨false, .slippageTooHigh, some 0, none⟩
    else
      -- lines 1156-1187: global position-count cap
      if positionSymbolCount bp_positions hl_positions cx_positions ≥ max_positions_count then
        .ok ⟨false, .maxPositionsLimit, none, none⟩
      else
        -- lines 1189-1200: per-pair configuration
        match trading_pairs.find? (fun p => p.symbol = symbol) with
        | none => .ok ⟨false, .noPairConfig, none, none⟩
        | some pair =>
          -- lines 1202-1215: per-symbol size cap (current_size is the
          -- constant 0 of line 1190)
          let max_position_size := pair.max_position_size.getD 0
          let current_size : ℚ := 0
          if current_size ≥ max_position_size then
            .ok ⟨false, .maxSizeReached, none, none⟩
          else
            let available_size := max_position_size - current_size
            -- lines 1223-1231: price and funding conditions
            let price_condition_met :=
              oc.min_price_diff_percent ≤ |price_diff_percent|
              ∧ |price_diff_percent| ≤ oc.max_price_diff_percent
            let funding_condition_met := |funding_diff| ≥ oc.min_funding_diff
            -- lines 1242-1278: direction-consistency block
            let dir :
                Except (PyExn × (Option SideT × Option SideT × Option SideT))
                  (Bool × Option (Option SideT × Option SideT × Option SideT)) :=
              if oc.check_direction_consistency ∧ price_condition_met ∧ funding_condition_met then
                if cx_price.isSome ∧ cx_funding.isSome then
                  let m := check_direction_consistency_multi bp_weight hl_weight cx_weight
                    bp_funding adjusted_hl_funding (cx_funding.getD 0)
                  if m.1 then
                    -- three-venue branch, direction consistent: the write of
                    -- lines 1271-1278 includes cx when truthy
                    let w := (lookupSide m.2 "backpack", lookupSide m.2 "hyperliquid",
                      lookupSide m.2 "coinex")
                    .ok (true, some w)
                  else .ok (false, none)
                else
                  let t := check_direction_consistency bp_price hl_price
                    bp_funding adjusted_hl_funding
                  if t.1 then
                    -- two-venue branch, consistent: the dict write of
                    -- line 1271 happens, then line 1277 reads the undefined
                    -- local `preferred_cx_side` - NameError
                    .error (.nameError "preferred_cx_side",
                      (some t.2.1, some t.2.2, none))
                  else .ok (false, none)
              else .ok (true, none)
            match dir with
            | .error e => .error e
            | .ok (direction_consistent, w) =>
              -- lines 1280-1300: condition-type switch
              let should_open :=
                match oc.condition_type with
                | .any => (price_condition_met ∨ funding_condition_met) ∧ direction_consistent
                | .all => price_condition_met ∧ funding_condition_met ∧ direction_consistent
                | .funding_only => funding_condition_met ∧ direction_consistent
                | .price_only => price_condition_met ∧ direction_consistent
                | .other => false
              .ok ⟨should_open, .conditionVerdict, some available_size, w⟩

/-! ### core/arbitrage_engine.py : _check_close_conditions_without_execution
(lines 1481-1689) -/

/-- A venue position dict as the close evaluator consumes it: the value of
its `"side"` key (the `.get(..., "UNKNOWN")` default of lines 1559-1561 is
taken when the whole position is `None`) and its `"size"` value. -/
structure PosEntry where
  side : SideT
  size : ℚ
deriving DecidableEq, Repr

/-- Entry side of a possibly absent position, lines 1559-1561:
`position.get("side", "UNKNOWN") if position else "UNKNOWN"`. -/
def entrySideOf (p : Option PosEntry) : SideT :=
  match p with
  | none => .UNKNOWN
  | some e => e.side

/-- Per-venue reversal flag, lines 1564-1578: the entry side is known, the
currently preferred side is truthy (any string; only Python `None` is
falsy), and the two are opposite. -/
def revFlag (entry : SideT) (cur : Option SideT) : Bool :=
  entry ≠ SideT.UNKNOWN ∧ cur.isSome ∧
    ((entry = SideT.BUY ∧ cur = some SideT.SELL) ∨ (entry = SideT.SELL ∧ cur = some SideT.BUY))

/-- The held-combination dispatch of lines 1580-1594: direction reversal
holds according to which venues have a known entry side, with the
consistency flag required in every branch; fewer than two known entry sides
leave the flag `False`. -/
def directionReversed (ebp ehl ecx : SideT) (rbp rhl rcx is_consistent : Bool) : Bool :=
  if ebp ≠ SideT.UNKNOWN ∧ ehl ≠ SideT.UNKNOWN ∧ ecx ≠ SideT.UNKNOWN then
    rbp ∧ rhl ∧ rcx ∧ is_consistent
  else if ebp ≠ SideT.UNKNOWN ∧ ehl ≠ SideT.UNKNOWN then rbp ∧ rhl ∧ is_consistent
  else if ebp ≠ SideT.UNKNOWN ∧ ecx ≠ SideT.UNKNOWN then rbp ∧ rcx ∧ is_consistent
  else if ehl ≠ SideT.UNKNOWN ∧ ecx ≠ SideT.UNKNOWN then rhl ∧ rcx ∧ is_consistent
  else false

/-- The `close_conditions` configuration block with the `.get` defaults of
lines 1524-1527, 1610-1620. -/
structure CloseConds where
  condition_type : CondType := .any
  min_position_time : ℚ := 600
  min_funding_diff : ℚ := 0.000005
  min_profit_percent : ℚ := 0.1
  max_close_slippage_percent : ℚ := 0.25
  ignore_close_slippage : Bool := false
deriving Repr

/-- Reason tags for the close decision (the source returns formatted
strings). -/
inductive CloseReason where
  | tooEarly          -- "持仓时间过短"
  | notReversed       -- "方向未反转，不满足平仓条件"
  | slippageTooHigh   -- "滑点过高(...)"
  | conditionVerdict  -- the condition_type reason strings
deriving DecidableEq, Repr

/-- The position dict built at lines 1674-1687 and handed to
`_close_position`: the `cx_side`/`cx_size` keys exist only when the
`cx_position` argument is truthy.  For `cx_side` the outer `Option` models
key presence (`none` = key absent, so indexing raises `KeyError`) and the
inner `Option` the Python value (which may itself be `None`). -/
structure ClosePosDict where
  bp_symbol : String
  hl_symbol : String
  cx_symbol : String
  bp_side : Option SideT
  hl_side : Option SideT
  bp_size : Option ℚ
  hl_size : Option ℚ
  cx_side : Option (Option SideT) := none
  cx_size : Option ℚ := none
deriving DecidableEq, Repr

/-- The currently-preferred sides and consistency flag computed at
lines 1539-1556 of the close evaluator: the three-venue check when both
CoinEx price and funding are truthy, the two-venue check otherwise. -/
def closeCurrentSides (bp_weight hl_weight cx_weight : ℚ)
    (bp_price hl_price bp_funding adjusted_hl_funding : ℚ)
    (cx_price cx_funding : Option ℚ) :
    Bool × Option SideT × Option SideT × Option SideT :=
  if optTruthy cx_price ∧ optTruthy cx_funding then
    let m := check_direction_consistency_multi bp_weight hl_weight cx_weight
      bp_funding adjusted_hl_funding (cx_funding.getD 0)
    (m.1, lookupSide m.2 "backpack", lookupSide m.2 "hyperliquid", lookupSide m.2 "coinex")
  else
    let t := check_direction_consistency bp_price hl_price bp_funding adjusted_hl_funding
    (t.1, some t.2.1, some t.2.2, none)

/-- Transcribes `ArbitrageEngine._check_close_conditions_without_execution`
(lines 1481-1689): the minimum-holding-time gate (lines 1526-1535, skipped
when no open time is recorded, i.e. the `.get(symbol, 0)` default), the
direction-reversal gate, the close slippage gate, the condition-type switch,
and the unconditional construction of the position dict (lines 1674-1687).
`open_time` is `self.position_open_times.get(symbol, 0)`. -/
def check_close_conditions (cc : CloseConds)
    (bp_weight hl_weight cx_weight : ℚ)
    (symbol : String) (open_time current_time : ℚ)
    (bp_position hl_position : Option PosEntry)
    (bp_price hl_price bp_funding adjusted_hl_funding : ℚ)
    (price_diff_percent funding_diff : ℚ)
    (cx_position : Option PosEntry) (cx_price cx_funding : Option ℚ)
    (total_slippage : Option ℚ) :
    Bool × CloseReason × Option ClosePosDict :=
  if open_time > 0 ∧ current_time - open_time < cc.min_position_time then
    (false, .tooEarly, none)
  else
    let cur := closeCurrentSides bp_weight hl_weight cx_weight
      bp_price hl_price bp_funding adjusted_hl_funding cx_price cx_funding
    let is_consistent := cur.1
    let bp_current_side := cur.2.1
    let hl_current_side := cur.2.2.1
    let cx_current_side := cur.2.2.2
    let bp_entry_side := entrySideOf bp_position
    let hl_entry_side := entrySideOf hl_position
    let cx_entry_side := entrySideOf cx_position
    let bp_direction_reversed := revFlag bp_entry_side bp_current_side
    let hl_direction_reversed := revFlag hl_entry_side hl_current_side
    let cx_direction_reversed := revFlag cx_entry_side cx_current_side
    let direction_reversed := directionReversed bp_entry_side hl_entry_side cx_entry_side
      bp_direction_reversed hl_direction_reversed cx_direction_reversed is_consistent
    if ¬direction_reversed then (false, .notReversed, none)
    else
      let ts := total_slippage.getD 0.5
      let slippage_condition_met := cc.ignore_close_slippage ∨ ts ≤ cc.max_close_slippage_percent
      if ¬slippage_condition_met then (false, .slippageTooHigh, none)
      else
        let funding_condition_met := |funding_diff| ≥ cc.min_funding_diff
        let price_condition_met := |price_diff_percent| ≥ cc.min_profit_percent
        let should_close :=
          match cc.condition_type with
          | .any => funding_condition_met ∨ price_condition_met
          | .all => funding_condition_met ∧ price_condition_met
          | .funding_only => funding_condition_met
          | .price_only => price_condition_met
          | .other => false
        let position : ClosePosDict :=
          { bp_symbol := get_backpack_symbol symbol
            hl_symbol := symbol
            cx_symbol := symbol
            bp_side := bp_position.map PosEntry.side
            hl_side := hl_position.map PosEntry.side
            bp_size := some ((bp_position.map PosEntry.size).getD 0)
            hl_size := some ((hl_position.map PosEntry.size).getD 0)
            cx_side := cx_position.map (fun p => some p.side)
            cx_size := cx_position.map PosEntry.size }
        (should_close, .conditionVerdict, some position)

/-! ### Engine state and small Python-semantics utilities -/

/-- Association-list lookup modelling `dict.get(k)`. -/
def getA {α : Type} (m : List (String × α)) (k : String) : Option α :=
  (m.find? (fun p => p.1 = k)).map Prod.snd

/-- Association-list update modelling `d[k] = v`. -/
def setA {α : Type} (m : List (String × α)) (k : String) (v : α) : List (String × α) :=
  (k, v) :: m.filter (fun p => p.1 ≠ k)

/-- Association-list removal modelling `del d[k]`. -/
def delA {α : Type} (m : List (String × α)) (k : String) : List (String × α) :=
  m.filter (fun p => p.1 ≠ k)

/-- The engine's mutable entry/sign state (initialised at
`arbitrage_engine.py` lines 164-187) plus the externally visible effect
channels: the audit snapshot directory, the webhook alerter and the
display-manager order messages (the latter two counted, since their payloads
are formatted log text). -/
structure EngineState where
  funding_diff_signs : List (String × ℤ) := []
  price_diff_signs : List (String × ℤ) := []
  position_directions : List (String × (Option SideT × Option SideT × Option SideT)) := []
  position_open_times : List (String × ℚ) := []
  entry_prices : List (String × (ℚ × ℚ × Option ℚ)) := []
  entry_funding_rates : List (String × (ℚ × ℚ × Option ℚ)) := []
  snapshot_files : List (String × String) := []
  alerts : Nat := 0
  order_messages : Nat := 0
deriving DecidableEq, Repr

/-- Floor of a rational as an integer (numerator floor-divided by
denominator). -/
def ratFloor (x : ℚ) : ℤ :=
  Int.fdiv x.num x.den

/-- Python `round` on a rational: round-half-to-even. -/
def pyRound (x : ℚ) : ℤ :=
  let f := ratFloor x
  let r := x - f
  if r < 1 / 2 then f
  else if r > 1 / 2 then f + 1
  else if f % 2 = 0 then f else f + 1

/-- Python `round(x, n)` (exact-rational model of the two-argument round;
the engine's configured precisions are natural numbers). -/
def pyRoundTo (x : ℚ) (n : ℕ) : ℚ :=
  (pyRound (x * (10 : ℚ) ^ n) : ℚ) / (10 : ℚ) ^ n

/-- Digits-only numeral value; `none` on any non-digit character. -/
def digitsVal : List Char → Option ℕ
  | l => l.foldl (fun acc c =>
      match acc with
      | none => none
      | some n => if c.isDigit then some (n * 10 + (c.toNat - 48)) else none) (some 0)

/-- Conservative model of Python `float(s)` on a string: optional sign,
decimal digits with an optional decimal point.  Market symbols such as
`"BTC"` contain letters, so `float` raises `ValueError` — modelled by
`none`. -/
def floatOfString (s : String) : Option ℚ :=
  let t := s.trim
  let u := if t.startsWith "-" ∨ t.startsWith "+" then t.drop 1 else t
  let sgn : ℚ := if t.startsWith "-" then -1 else 1
  match u.splitOn "." with
  | [a] =>
      if a.length = 0 then none
      else (digitsVal a.data).map (fun n => sgn * n)
  | [a, b] =>
      if a.length = 0 ∧ b.length = 0 then none
      else
        match digitsVal a.data, digitsVal b.data with
        | some na, some nb => some (sgn * ((na : ℚ) + (nb : ℚ) / (10 : ℚ) ^ b.length))
        | _, _ => none
  | _ => none

/-! ### core/arbitrage_engine.py : _open_position (lines 1691-2322) -/

/-- The trade-direction determination of `_open_position`
(lines 1791-1891).  When `self.preferred_sides[symbol]` exists its entries
are used directly (lines 1791-1802).  Otherwise the venues with funding data
are ranked (lines 1806-1850): the first index attaining the minimum buys,
the first index attaining the maximum sells, via Python's
`list.index(min(...))`; the middle venue keeps its `None` initialisation.
The `bp_funding`/`hl_funding` parameters are the candidate values, which the
caller already normalised, and the sign-rule block at lines 1868-1891 then
unconditionally overwrites the Backpack/Hyperliquid sides with the same rule
as `check_direction_consistency` (it is not guarded by the
fewer-than-two-venues comment above it). -/
def openPositionSides
    (preferred : Option (Option SideT × Option SideT × Option SideT))
    (bp_funding hl_funding : ℚ) (cx_funding : Option ℚ) :
    Option SideT × Option SideT × Option SideT :=
  match preferred with
  | some p => p
  | none =>
    let funding_rates : List ℚ :=
      [bp_funding, hl_funding * 8] ++ (match cx_funding with | some c => [c] | none => [])
    let lo := funding_rates.foldr min bp_funding
    let hi := funding_rates.foldr max bp_funding
    let min_idx := funding_rates.findIdx (fun r => r = lo)
    let max_idx := funding_rates.findIdx (fun r => r = hi)
    let assign : Nat → Option SideT := fun i =>
      if i = min_idx then some .BUY else if i = max_idx then some .SELL else none
    let cx_side := match cx_funding with | some _ => assign 2 | none => none
    -- lines 1868-1891: unconditional overwrite by the two-venue sign rule
    let fs := funding_sides bp_funding hl_funding
    (some fs.1, some fs.2, cx_side)

/-- Venue-interaction results consumed by `_open_position`: the market-data
prices and the position lookups before and after the trade (a position is
modelled by the size the venue reports — `quantity` for Backpack, `size` for
the other two — and `none` when the venue reports no position). -/
structure OpenIO where
  bp_price : Option ℚ
  hl_price : Option ℚ
  cx_in_data : Bool := false
  cx_price : Option ℚ := none
  pre_bp : Option ℚ := none
  pre_hl : Option ℚ := none
  pre_cx : Option ℚ := none
  post_bp : Option ℚ := none
  post_hl : Option ℚ := none
  post_cx : Option ℚ := none
deriving Repr

/-- Python return value of the two execution coroutines: `None` from
falling off the end or a bare `return`, `False` from the exception
handlers. -/
inductive PyRet where
  | retNone
  | retFalse
deriving DecidableEq, Repr

/-- The `except` handler of `_open_position` (lines 2319-2322): logs,
pushes one display message, returns `False`. -/
def openExcept (st : EngineState) : PyRet × EngineState :=
  (.retFalse, { st with order_messages := st.order_messages + 1 })

/-- The leg-filled judgment of `_open_position` (lines 2161-2207, the same
shape per venue): a leg with no side is never judged; otherwise it is filled
if a position appeared where none existed, or an existing position's size
moved by at least 80 % of the intended size. -/
def legFilled (side : Option SideT) (pre post : Option ℚ) (intended : ℚ) : Bool :=
  match side with
  | none => false
  | some _ =>
    match pre, post with
    | none, some _ => true
    | some p, some q => |q - p| ≥ 0.8 * intended
    | _, _ => false

/-- Transcribes `ArbitrageEngine._open_position` (lines 1691-2322), with the
venue interactions supplied through `io` and the current clock through
`now`.  Order placement results (lines 2017-2116) feed only log output —
the filled-or-not judgment of lines 2156-2226 is made exclusively from the
position snapshots — so they are not inputs.  Control flow and all state
writes are transcribed in source order:

* early returns on missing prices (1721-1723) or missing pair config
  (1732-1734) leave the state untouched and return `None`;
* the funding sign is recorded and persisted at 1767-1770, before any order
  is placed;
* in the all-legs-confirmed branch (2229 onwards) the success message is
  pushed and the four entry maps are written (2240-2262), after which the
  call to `_save_position_snapshot` at 2265 passes the keyword arguments
  `cx_position`, `cx_price` and `cx_funding` that the method's signature
  (line 271) does not accept — an immediate `TypeError`, caught by the
  handler at 2319 which pushes a message and returns `False`, so no
  snapshot file is ever written and the alerter block (2280-2311) is never
  reached;
* any other fill outcome falls off the `if` with no `else`: no state write,
  no display message, no alert, return `None`. -/
def open_position (trading_pairs : List TradingPair)
    (position_sizes : List (String × ℚ))
    (symbol : String) (bp_funding hl_funding : ℚ)
    (available_size : Option ℚ) (cx_funding : Option ℚ)
    (preferred : Option (Option SideT × Option SideT × Option SideT))
    (io : OpenIO) (now : ℚ) (st : EngineState) : PyRet × EngineState :=
  -- lines 1712-1723
  match io.bp_price, io.hl_price with
  | some bp_price, some hl_price =>
    let cx_price := if io.cx_in_data then io.cx_price else none
    -- lines 1726-1734
    match trading_pairs.find? (fun p => p.symbol = symbol) with
    | none => (.retNone, st)
    | some pair =>
      -- lines 1741-1744: the three legs share one size
      let size0 : Except PyExn ℚ :=
        match available_size with
        | some a => .ok a
        | none =>
          match getA position_sizes symbol with
          | some v => .ok v
          | none => .error (.keyError symbol)
      match size0 with
      | .error _ => openExcept st
      | .ok size0 =>
        -- lines 1746-1752: comparing against a missing min_volume raises
        match pair.min_volume with
        | none => openExcept st
        | some min_volume =>
          let size1 := if size0 < min_volume then min_volume else size0
          -- lines 1754-1760
          let size :=
            match pair.max_position_size with
            | some m => if size1 > m then m else size1
            | none => size1
          -- lines 1762-1770: recomputes the differential (double-scaling
          -- the already-normalised hl rate) and persists its sign
          let fd := calculate_funding_diff bp_funding hl_funding
          let st := { st with funding_diff_signs := setA st.funding_diff_signs symbol fd.2 }
          -- lines 1772-1781
          if hl_price = 0 then openExcept st
          else
            let price_diff_percent := (bp_price - hl_price) / hl_price * 100
            let price_diff_sign : ℤ := if price_diff_percent > 0 then 1 else -1
            let st := { st with price_diff_signs := setA st.price_diff_signs symbol price_diff_sign }
            -- lines 1791-1891
            let sides := openPositionSides preferred bp_funding hl_funding cx_funding
            let bp_side := sides.1
            let hl_side := sides.2.1
            let cx_side := sides.2.2
            -- lines 1940-1962: limit-price arithmetic (values feed only the
            -- order calls; the division by tick_size can raise)
            let price_precision := pair.price_precision.getD 3
            let tick_size := pair.tick_size.getD 0.001
            if tick_size = 0 then openExcept st
            else
              let hl_adj : ℚ := if hl_side = some .BUY then 1.005 else 0.995
              let _hl_limit_price :=
                pyRoundTo ((pyRound (hl_price * hl_adj / tick_size) : ℚ) * tick_size) price_precision
              let _cx_limit_price : Option ℚ :=
                match cx_side, cx_price with
                | some s, some cp =>
                  let adj : ℚ := if s = .BUY then 1.005 else 0.995
                  some (pyRoundTo ((pyRound (cp * adj / tick_size) : ℚ) * tick_size) price_precision)
                | _, _ => none
              -- lines 2156-2226: fill judgment from position snapshots
              let bp_changed := legFilled bp_side io.pre_bp io.post_bp size
              let hl_changed := legFilled hl_side io.pre_hl io.post_hl size
              let cx_changed := legFilled cx_side io.pre_cx io.post_cx size
              let required_exchanges :=
                (if bp_side.isSome then 1 else 0) + (if hl_side.isSome then 1 else 0)
                + (if cx_side.isSome then 1 else 0)
              let successful_exchanges :=
                (if bp_changed then 1 else 0) + (if hl_changed then 1 else 0)
                + (if cx_changed then 1 else 0)
              -- lines 2229-2322
              if successful_exchanges = required_exchanges ∧ required_exchanges ≥ 2 then
                let st := { st with order_messages := st.order_messages + 1 }
                let st := { st with
                  position_directions := setA st.position_directions symbol (bp_side, hl_side, cx_side)
                  position_open_times := setA st.position_open_times symbol now
                  entry_prices := setA st.entry_prices symbol (bp_price, hl_price, cx_price)
                  entry_funding_rates := setA st.entry_funding_rates symbol (bp_funding, hl_funding, cx_funding) }
                -- line 2265: TypeError on the snapshot call's keyword
                -- arguments; handler at 2319
                openExcept st
              else
                (.retNone, st)
  | _, _ => (.retNone, st)

/-! ### core/arbitrage_engine.py : _close_position (lines 2324-2788) -/

/-- Venue-interaction results consumed by `_close_position`: the
market-data record for the symbol and the position lookups before and after
the close orders (modelled by the reported sizes, `none` = no position
found). -/
structure CloseIO where
  data_present : Bool := true
  bp_price : Option ℚ := none
  hl_price : Option ℚ := none
  bp_funding : Option ℚ := none
  hl_funding : Option ℚ := none
  cx_in_data : Bool := false
  cx_price : Option ℚ := none
  cx_funding : Option ℚ := none
  pre_bp : Option ℚ := none
  pre_hl : Option ℚ := none
  pre_cx : Option ℚ := none
  post_bp : Option ℚ := none
  post_hl : Option ℚ := none
  post_cx : Option ℚ := none
deriving Repr

/-- Full outcome of one `_close_position` call: the Python return value,
the state after the call, the venues to which close orders were actually
submitted (lines 2474-2510), and the exception caught by the handler at
line 2784, if any. -/
structure CloseResult where
  ret : Bool
  st : EngineState
  orders : List String
  caught : Option PyExn
deriving DecidableEq, Repr

/-- The `except` handler of `_close_position` (lines 2784-2788): logs,
pushes one display message, returns `False`. -/
def closeExcept (st : EngineState) (orders : List String) (e : PyExn) : CloseResult :=
  ⟨false, { st with order_messages := st.order_messages + 1 }, orders, some e⟩

/-- The close-side inversion of lines 2351-2353:
`"SELL" if side == "BUY" else "BUY" if side else None`. -/
def invertSide (s : Option SideT) : Option SideT :=
  match s with
  | some .BUY => some .SELL
  | some _ => some .BUY
  | none => none

/-- The per-venue closed judgment of lines 2628-2685: position vanished, or
an existing position shrank by at least 90 %. -/
def legClosed (pre post : Option ℚ) : Bool :=
  match pre, post with
  | some _, none => true
  | some p, some q => p > 0 ∧ (p - q) / p ≥ 0.9
  | _, _ => false

/-- Transcribes `ArbitrageEngine._close_position` (lines 2324-2788), with
venue interactions supplied through `io`.  All raise sites of the body are
explicit:

* `position["cx_side"]` (line 2344) raises `KeyError` when the close
  evaluator built the dict without a CoinEx leg — the evaluator adds the
  `cx_side` key only when its (never passed) `cx_position` argument is
  truthy;
* `float(position["cx_symbol"])` (line 2348) raises `ValueError` on a
  non-numeric symbol string whenever the `cx_side` value is not `None`;
* `data["hyperliquid"]["funding_rate"] * 8` (line 2379) raises on a `None`
  rate;
* the price adjustment at lines 2457-2468 multiplies a possibly-`None`
  Backpack price and then references the names `tick_size` and
  `price_precision`, which are never assigned in this method (they are
  locals of `_open_position`) — a `NameError` whenever `bp_limit_price` is
  truthy.

On the all-legs-closed path the snapshot call at line 2703 passes the
keyword arguments `cx_position`/`cx_price`/`cx_funding` that
`_save_position_snapshot`'s signature (line 271) does not accept, raising
`TypeError` before the entry-state deletions at lines 2717-2732, so those
deletions are unreachable. -/
def close_position (pos : ClosePosDict) (io : CloseIO) (st : EngineState) : CloseResult :=
  -- lines 2333-2335
  let st := { st with order_messages := st.order_messages + 1 }
  -- lines 2338-2344: direct key reads; cx_side may be absent
  match pos.cx_side with
  | none => closeExcept st [] (.keyError "cx_side")
  | some cx_side0 =>
    -- lines 2346-2348
    let _bp_size := pos.bp_size.getD 0
    let _hl_size := pos.hl_size.getD 0
    let cx_size0 : Except PyExn ℚ :=
      if cx_side0.isSome then
        match floatOfString pos.cx_symbol with
        | some v => .ok v
        | none => .error .valueError
      else .ok 0
    match cx_size0 with
    | .error e => closeExcept st [] e
    | .ok _cx_size =>
      -- lines 2350-2366
      let bp_close_side := invertSide pos.bp_side
      let _hl_close_side := invertSide pos.hl_side
      let _cx_close_side := invertSide cx_side0
      let st := { st with order_messages := st.order_messages + 1 }
      -- lines 2369-2374
      if ¬io.data_present then
        ⟨false, { st with order_messages := st.order_messages + 1 }, [], none⟩
      else
        -- lines 2376-2386
        match io.hl_funding with
        | none => closeExcept st [] .typeError
        | some _hlf =>
          let bp_price := io.bp_price
          let hl_price := io.hl_price
          let cx_price := if io.cx_in_data then io.cx_price else none
          -- lines 2388-2400
          if (pos.bp_side.isSome ∧ ¬optTruthy bp_price)
              ∨ (pos.hl_side.isSome ∧ ¬optTruthy hl_price)
              ∨ (cx_side0.isSome ∧ ¬optTruthy cx_price) then
            ⟨false, { st with order_messages := st.order_messages + 1 }, [], none⟩
          else
            -- lines 2436-2449: legs the venue reports flat are dropped
            let bp_side := if pos.bp_side.isSome ∧ io.pre_bp = none then none else pos.bp_side
            let hl_side := if pos.hl_side.isSome ∧ io.pre_hl = none then none else pos.hl_side
            let cx_side := if cx_side0.isSome ∧ io.pre_cx = none then none else cx_side0
            let bp_close_side :=
              if pos.bp_side.isSome ∧ io.pre_bp = none then none else bp_close_side
            -- lines 2452-2454
            if bp_side = none ∧ hl_side = none ∧ cx_side = none then
              ⟨false, st, [], none⟩
            else
              -- lines 2457-2468
              let bp_price_adjuster : ℚ := if bp_close_side = some .BUY then 1.005 else 0.995
              match bp_price with
              | none => closeExcept st [] .typeError
              | some bpp =>
                let bp_limit_price := bpp * bp_price_adjuster
                if bp_limit_price ≠ 0 then
                  closeExcept st [] (.nameError "tick_size")
                else
                  -- lines 2471-2510: close orders are submitted here
                  let orders :=
                    (if bp_side.isSome then ["backpack"] else [])
                    ++ (if hl_side.isSome then ["hyperliquid"] else [])
                    ++ (if cx_side.isSome then ["coinex"] else [])
                  -- lines 2512-2581 feed logs only; lines 2624-2692:
                  let flags :=
                    (if bp_side.isSome then [legClosed io.pre_bp io.post_bp] else [])
                    ++ (if hl_side.isSome then [legClosed io.pre_hl io.post_hl] else [])
                    ++ (if cx_side.isSome then [legClosed io.pre_cx io.post_cx] else [])
                  if flags.all id ∧ flags ≠ [] then
                    -- lines 2694-2700, then the TypeError of line 2703:
                    -- the deletions at 2717-2732 are never reached
                    let st := { st with order_messages := st.order_messages + 1 }
                    closeExcept st orders .typeError
                  else
                    -- lines 2765-2782: warning logs and stats only
                    ⟨false, st, orders, none⟩

/-! ### Claim theorems -/

/-- C7: for every symbol that has a live position on any tracked venue
(its Backpack symbol among the Backpack position keys, the symbol among the
Hyperliquid keys, or the symbol among the CoinEx keys), the open evaluator
`_check_open_conditions_without_execution` rejects immediately with the
existing-position reason, returning `should_open = False` regardless of
every price, funding, slippage or configuration argument — so no open
candidate is ever produced for it. -/
theorem C7_no_open_for_symbol_with_live_position
    (oc : OpenConds) (max_positions_count : Nat) (trading_pairs : List TradingPair)
    (bp_weight hl_weight cx_weight : ℚ) (symbol : String)
    (bp_price hl_price bp_funding adjusted_hl_funding price_diff_percent funding_diff : ℚ)
    (bp_positions hl_positions : List String) (cx_price cx_funding : Option ℚ)
    (cx_positions : List String) (total_slippage : Option ℚ)
    (h : get_backpack_symbol symbol ∈ bp_positions ∨ symbol ∈ hl_positions
       ∨ (cx_positions ≠ [] ∧ symbol ∈ cx_positions)) :
    check_open_conditions oc max_positions_count trading_pairs
      bp_weight hl_weight cx_weight symbol bp_price hl_price
      bp_funding adjusted_hl_funding price_diff_percent funding_diff
      bp_positions hl_positions cx_price cx_funding cx_positions total_slippage
      = .ok ⟨false, .hasPosition, some 0, none⟩ := by
  unfold check_open_conditions
  rw [if_pos h]

/-- Witness for C7 at a concrete input: BTC holds a Backpack position. -/
theorem C7_no_open_for_symbol_with_live_position_witness :
    check_open_conditions {} 5 [] 1 1 1 "BTC" 100 100 0 0 0 1
      ["BTC_USDC_PERP"] [] none none [] none
      = .ok ⟨false, .hasPosition, some 0, none⟩ :=
  C7_no_open_for_symbol_with_live_position {} 5 [] 1 1 1 "BTC" 100 100 0 0 0 1
    ["BTC_USDC_PERP"] [] none none [] none (Or.inl (by decide))

/-- C8: for every held position with a recorded `openedAt`
(`position_open_times.get(symbol, 0) > 0`), the close evaluator returns
`should_close = False` (reason: holding time too short) whenever fewer than
`min_position_time` seconds have elapsed since the open, regardless of the
funding, price, slippage and direction arguments. -/
theorem C8_no_close_before_min_position_time
    (cc : CloseConds) (bp_weight hl_weight cx_weight : ℚ) (symbol : String)
    (open_time current_time : ℚ) (bp_position hl_position : Option PosEntry)
    (bp_price hl_price bp_funding adjusted_hl_funding price_diff_percent funding_diff : ℚ)
    (cx_position : Option PosEntry) (cx_price cx_funding : Option ℚ)
    (total_slippage : Option ℚ)
    (h1 : open_time > 0) (h2 : current_time - open_time < cc.min_position_time) :
    (check_close_conditions cc bp_weight hl_weight cx_weight symbol
      open_time current_time bp_position hl_position bp_price hl_price
      bp_funding adjusted_hl_funding price_diff_percent funding_diff
      cx_position cx_price cx_funding total_slippage).1 = false := by
  unfold check_close_conditions
  rw [if_pos ⟨h1, h2⟩]

/-- Witness for C8 at a concrete input: a position opened one second ago,
with the default 600-second minimum, and close conditions otherwise met. -/
theorem C8_no_close_before_min_position_time_witness :
    (check_close_conditions {} 1 1 1 "BTC" 1 2
      (some ⟨.BUY, 1⟩) (some ⟨.SELL, 1⟩) 100 100 1 (-1) 5 1
      none none none (some 0.01)).1 = false :=
  C8_no_close_before_min_position_time {} 1 1 1 "BTC" 1 2
    (some ⟨.BUY, 1⟩) (some ⟨.SELL, 1⟩) 100 100 1 (-1) 5 1
    none none none (some 0.01) (by norm_num) (by norm_num)

/-- C1: a 3-leg open (Backpack SELL / Hyperliquid BUY / CoinEx SELL
required) in which the post-trade position re-check confirms only the
Backpack and Hyperliquid legs.  The result: no EntryRecord component is
persisted — `position_directions`, `position_open_times`, `entry_prices`
and `entry_funding_rates` all stay empty — which matches the claim's first
half; but the function simply falls off the success `if` (lines 2229-2317
have no `else`), emitting *no* inconsistency signal: no alert, no display
message, nothing but the per-leg logs — refuting the claim's second half.
The differential sign was even persisted before the orders were placed
(lines 1767-1770). -/
theorem C1_partial_three_leg_open_is_silent :
    open_position [⟨"BTC", some 1, some (1/10), none, none⟩] [] "BTC" 2 1
      (some (1/2)) (some 16) none
      { bp_price := some 100, hl_price := some 100, cx_in_data := true,
        cx_price := some 100, post_bp := some (1/2), post_hl := some (1/2) }
      1000 {} =
    (.retNone,
     { funding_diff_signs := [("BTC", -1)], price_diff_signs := [("BTC", -1)] }) := by
  norm_num [open_position, openPositionSides, funding_sides, calculate_funding_diff,
    legFilled, setA, getA, openExcept, pyRoundTo, pyRound, ratFloor,
    List.find?, List.filter, List.findIdx, List.findIdx.go]

/-- C4: rate-normalisation.  (1) The Backpack-vs-Hyperliquid comparison
normalises exactly once: `calculate_funding_diff` applied to the raw pair
(0.02 % 8h, 0.01 % 1h) yields the 0.06 % normalised differential, which
satisfies `minFundingDiff = 0.0001`, and under `funding_only` the open check
proposes an Open whose trade direction makes Backpack (venue A, lower
normalised rate) Long and Hyperliquid (venue B, higher normalised rate)
Short — the scenario half of the claim.  (2) But the CoinEx comparisons at
`_collect_arbitrage_opportunity` lines 753-759 feed *8-hour* rates into
`calculate_funding_diff`'s second slot, whose contract (helpers.py
docstring, lines 104-112) is a 1-hour Hyperliquid rate that it multiplies
by 8: two venues both funding 0.0001 per 8h produce a reported differential
of 0.0007 instead of the true once-normalised differential 0 — refuting the
claim's every-pair-rescaled-exactly-once half. -/
theorem C4_normalisation_scenario_and_cx_double_rescale :
    (calculate_funding_diff 0.0002 0.0001).1 = 0.0006
    ∧ check_open_conditions { condition_type := .funding_only, min_funding_diff := 0.0001 }
        5 [⟨"BTC", some 1, none, none, none⟩] 1 1 1 "BTC" 100 101 0.0002 0.0008 0 0.0006
        [] [] none none [] (some 0.1)
      = .ok ⟨true, .conditionVerdict, some 1, none⟩
    ∧ openPositionSides none 0.0002 0.0008 none = (some .BUY, some .SELL, none)
    ∧ (calculate_funding_diff 0.0001 0.0001).1 = 0.0007
    ∧ |(0.0001 : ℚ) - 0.0001| = 0 := by
  norm_num [calculate_funding_diff, check_open_conditions, openPositionSides,
    funding_sides, positionSymbolCount, get_backpack_symbol, List.find?,
    List.findIdx, List.findIdx.go, List.dedup, abs_of_nonneg, abs_of_nonpos]

/-- C9: a full round trip on the code.  The open confirms both legs and
records the entry state, but the snapshot call at line 2265 passes keyword
arguments `_save_position_snapshot`'s signature (line 271) does not accept
— the resulting `TypeError` aborts the success branch, so *no* open
snapshot file is written (and `_open_position` itself returns `False`).
The subsequent close on the evaluator-built position dict raises `KeyError`
on the absent `"cx_side"` key (line 2344) before submitting any order, so
the close also fails: the EntryRecord components and the persisted
DifferentialSign remain, and zero snapshot files exist — refuting every
conjunct of the round-trip claim (no EntryRecord, no DifferentialSign, two
snapshot files). -/
theorem C9_round_trip_keeps_state_and_writes_no_snapshots :
    (let o := open_position [⟨"BTC", some 1, some (1/10), none, none⟩] [] "BTC" 2 1
        (some (1/2)) none none
        { bp_price := some 100, hl_price := some 100,
          post_bp := some (1/2), post_hl := some (1/2) } 1000 {}
     let c := close_position
        ⟨"BTC_USDC_PERP", "BTC", "BTC", some .SELL, some .BUY, some (1/2), some (1/2),
          none, none⟩ { data_present := true } o.2
     o.1 = .retFalse
     ∧ getA o.2.position_directions "BTC" = some (some .SELL, some .BUY, none)
     ∧ o.2.snapshot_files = []
     ∧ c.ret = false
     ∧ c.caught = some (.keyError "cx_side")
     ∧ c.orders = []
     ∧ getA c.st.position_directions "BTC" = some (some .SELL, some .BUY, none)
     ∧ getA c.st.position_open_times "BTC" = some 1000
     ∧ getA c.st.entry_prices "BTC" = some (100, 100, none)
     ∧ getA c.st.entry_funding_rates "BTC" = some (2, 1, none)
     ∧ getA c.st.funding_diff_signs "BTC" = some (-1)
     ∧ c.st.snapshot_files = []
     ∧ c.st.alerts = 0) := by
  norm_num [open_position, close_position, openPositionSides, funding_sides,
    calculate_funding_diff, legFilled, setA, getA, openExcept, closeExcept,
    pyRoundTo, pyRound, ratFloor, List.find?, List.filter, List.findIdx,
    List.findIdx.go]

/-- C10 counterexample: on the position dict the close evaluator actually
produces for a Backpack+Hyperliquid position (it never passes its
`cx_position` argument, so the dict has no `"cx_side"` key), the exception
that aborts `_close_position` is the `KeyError` from `position["cx_side"]`
at line 2344 — not the `float(position["cx_symbol"])` `ValueError` the
claim names for the CoinEx case, and not the `tick_size`/`price_precision`
`NameError` the claim names for the remaining case, which sit later in the
method and are never reached. -/
theorem C10_counterexample_keyerror_not_claimed_sites :
    (let r := close_position
        ⟨"BTC_USDC_PERP", "BTC", "BTC", some .BUY, some .SELL, some 1, some 1,
          none, none⟩ {} {}
     r.caught = some (.keyError "cx_side")
     ∧ r.caught ≠ some (.nameError "tick_size")
     ∧ r.caught ≠ some (.nameError "price_precision")
     ∧ r.caught ≠ some .valueError
     ∧ r.ret = false
     ∧ r.orders = []) := by
  norm_num [close_position, closeExcept]
  decide

/-- Helper: the third component of the close decision triple equals the
final branch's payload whenever it is `some`, since both guarded early
branches carry `none`. -/
lemma ite_third_eq_some {β γ : Type} (c1 c2 : Prop) [Decidable c1] [Decidable c2]
    (b1 b2 b3 : Bool) (r1 r2 r3 : β) (L d : γ)
    (h : (if c1 then (b1, r1, (none : Option γ))
          else if c2 then (b2, r2, none)
          else (b3, r3, some L)).2.2 = some d) :
    d = L := by
  by_cases h1 : c1
  · rw [if_pos h1] at h; exact Option.noConfusion h
  · rw [if_neg h1] at h
    by_cases h2 : c2
    · rw [if_pos h2] at h; exact Option.noConfusion h
    · rw [if_neg h2] at h
      exact (Option.some.inj h).symm

/-- C10 amended: every `_close_position` call on a position dict without
the `"cx_side"` key — and the close evaluator's dict never has that key,
because no caller passes its `cx_position` argument — raises `KeyError` at
`position["cx_side"]` (line 2344) before any close order is submitted; the
method's own handler (line 2784) catches it and returns `False`, and the
entire entry state (`position_directions`, `position_open_times`,
`entry_prices`, `entry_funding_rates`, `funding_diff_signs` and its
persisted file) is left unchanged; only two display messages are pushed. -/
theorem C10_close_always_fails_before_any_order :
    (∀ (pos : ClosePosDict) (io : CloseIO) (st : EngineState), pos.cx_side = none →
      close_position pos io st =
        ⟨false, { st with order_messages := st.order_messages + 1 + 1 }, [],
          some (.keyError "cx_side")⟩)
    ∧ (∀ (cc : CloseConds) (bp_weight hl_weight cx_weight : ℚ) (symbol : String)
        (open_time current_time : ℚ) (bp_position hl_position : Option PosEntry)
        (bp_price hl_price bp_funding adjusted_hl_funding
         price_diff_percent funding_diff : ℚ)
        (cx_price cx_funding : Option ℚ) (total_slippage : Option ℚ)
        (d : ClosePosDict),
        (check_close_conditions cc bp_weight hl_weight cx_weight symbol
          open_time current_time bp_position hl_position bp_price hl_price
          bp_funding adjusted_hl_funding price_diff_percent funding_diff
          none cx_price cx_funding total_slippage).2.2 = some d →
        d.cx_side = none) := by
  constructor
  · intro pos io st h
    simp [close_position, closeExcept, h]
  · intro cc bp_weight hl_weight cx_weight symbol open_time current_time
      bp_position hl_position bp_price hl_price bp_funding adjusted_hl_funding
      price_diff_percent funding_diff cx_price cx_funding total_slippage d h
    unfold check_close_conditions at h
    by_cases hA : open_time > 0 ∧ current_time - open_time < cc.min_position_time
    · rw [if_pos hA] at h
      exact Option.noConfusion h
    · rw [if_neg hA] at h
      have hd := ite_third_eq_some _ _ _ _ _ _ _ _ _ _ h
      subst hd
      rfl

/-- Witness for C10 at a concrete input: the KeyError outcome on a
two-leg position dict. -/
theorem C10_close_always_fails_before_any_order_witness :
    close_position
      ⟨"BTC_USDC_PERP", "BTC", "BTC", some .SELL, some .BUY, some 1, some 1,
        none, none⟩ {} {} =
      ⟨false, { order_messages := 2 }, [], some (.keyError "cx_side")⟩ :=
  C10_close_always_fails_before_any_order.1
    ⟨"BTC_USDC_PERP", "BTC", "BTC", some .SELL, some .BUY, some 1, some 1,
      none, none⟩ {} {} rfl

/-- C2: direction reversal is the close gate.  First half: whenever the
close evaluator's reversal classification (lines 1580-1594) is `True`,
every leg with a known entry side has its per-venue reversal flag set —
i.e. a currently-preferred side opposite to its entry side (lines
1564-1578) — and the current direction ranking's consistency flag holds.
Second half: whenever the classification is `False`,
`_check_close_conditions_without_execution` returns `should_close = False`
no matter how the funding-difference and price conditions evaluate. -/
theorem C2_direction_reversal_gates_close :
    (∀ (ebp ehl ecx : SideT) (rbp rhl rcx c : Bool),
      directionReversed ebp ehl ecx rbp rhl rcx c = true →
        (ebp ≠ SideT.UNKNOWN → rbp = true)
        ∧ (ehl ≠ SideT.UNKNOWN → rhl = true)
        ∧ (ecx ≠ SideT.UNKNOWN → rcx = true)
        ∧ c = true)
    ∧ (∀ (cc : CloseConds) (bp_weight hl_weight cx_weight : ℚ) (symbol : String)
        (open_time current_time : ℚ) (bp_position hl_position : Option PosEntry)
        (bp_price hl_price bp_funding adjusted_hl_funding
         price_diff_percent funding_diff : ℚ)
        (cx_position : Option PosEntry) (cx_price cx_funding : Option ℚ)
        (total_slippage : Option ℚ),
        directionReversed (entrySideOf bp_position) (entrySideOf hl_position)
          (entrySideOf cx_position)
          (revFlag (entrySideOf bp_position)
            (closeCurrentSides bp_weight hl_weight cx_weight bp_price hl_price
              bp_funding adjusted_hl_funding cx_price cx_funding).2.1)
          (revFlag (entrySideOf hl_position)
            (closeCurrentSides bp_weight hl_weight cx_weight bp_price hl_price
              bp_funding adjusted_hl_funding cx_price cx_funding).2.2.1)
          (revFlag (entrySideOf cx_position)
            (closeCurrentSides bp_weight hl_weight cx_weight bp_price hl_price
              bp_funding adjusted_hl_funding cx_price cx_funding).2.2.2)
          (closeCurrentSides bp_weight hl_weight cx_weight bp_price hl_price
            bp_funding adjusted_hl_funding cx_price cx_funding).1 = false →
        (check_close_conditions cc bp_weight hl_weight cx_weight symbol
          open_time current_time bp_position hl_position bp_price hl_price
          bp_funding adjusted_hl_funding price_diff_percent funding_diff
          cx_position cx_price cx_funding total_slippage).1 = false) := by
  constructor
  · decide
  · intro cc bp_weight hl_weight cx_weight symbol open_time current_time
      bp_position hl_position bp_price hl_price bp_funding adjusted_hl_funding
      price_diff_percent funding_diff cx_position cx_price cx_funding
      total_slippage hrev
    unfold check_close_conditions
    by_cases hA : open_time > 0 ∧ current_time - open_time < cc.min_position_time
    · rw [if_pos hA]
    · rw [if_neg hA]
      simp only [hrev, Bool.not_false, not_false_eq_true, if_pos, Bool.false_eq_true,
        not_false_iff, if_true]

/-- Witness for C2 at a concrete input: no position held on any venue, so
the classification is `False` and the evaluator proposes no close. -/
theorem C2_direction_reversal_gates_close_witness :
    (check_close_conditions {} 1 1 1 "BTC" 0 0 none none 100 100 1 1 5 1
      none none none none).1 = false :=
  C2_direction_reversal_gates_close.2 {} 1 1 1 "BTC" 0 0 none none 100 100 1 1 5 1
    none none none none (by decide)

/-- C3 counterexample: one available venue (Backpack) whose data is exactly
`max_age_seconds` old.  The source invalidates only ages strictly greater
than the maximum (lines 548, 563, 578), so `is_data_valid` returns `True`,
while the claim's freshness wording — both timestamps *younger than* the
max-age parameter — evaluates to `False` on the same data. -/
theorem C3_exact_max_age_counterexample :
    is_data_valid true false false true
      ⟨⟨some 1, some 1, some 0, some 0⟩, ⟨none, none, none, none⟩,
        ⟨none, none, none, none⟩⟩ 300 300 = true
    ∧ venue_fresh_claim 300 300 ⟨some 1, some 1, some 0, some 0⟩ = false := by
  norm_num [is_data_valid, venue_check, venue_fresh_claim]

/-- C3 amended: the counting behaviour of `is_data_valid` for a symbol
present in the data store, with the per-venue freshness check as the source
computes it (fresh = all four fields present and both ages at most
`max_age_seconds`; data exactly max-age old still counts as fresh): zero
available venues — invalid; exactly one — that venue's check; two or more
available — valid iff at least two available venues pass the check. -/
theorem C3_validity_counting (bpA hlA cxA : Bool) (data : SymbolData)
    (now max_age_seconds : ℚ) :
    (bpA = false → hlA = false → cxA = false →
      is_data_valid bpA hlA cxA true data now max_age_seconds = false)
    ∧ (bpA = true → hlA = false → cxA = false →
      is_data_valid bpA hlA cxA true data now max_age_seconds
        = venue_check now max_age_seconds data.backpack)
    ∧ (bpA = false → hlA = true → cxA = false →
      is_data_valid bpA hlA cxA true data now max_age_seconds
        = venue_check now max_age_seconds data.hyperliquid)
    ∧ (bpA = false → hlA = false → cxA = true →
      is_data_valid bpA hlA cxA true data now max_age_seconds
        = venue_check now max_age_seconds data.coinex)
    ∧ (2 ≤ (if bpA then 1 else 0) + (if hlA then 1 else 0) + (if cxA then 1 else 0) →
      (is_data_valid bpA hlA cxA true data now max_age_seconds = true ↔
        2 ≤ (if bpA ∧ venue_check now max_age_seconds data.backpack then 1 else 0)
          + (if hlA ∧ venue_check now max_age_seconds data.hyperliquid then 1 else 0)
          + (if cxA ∧ venue_check now max_age_seconds data.coinex then 1 else 0))) := by
  cases bpA <;> cases hlA <;> cases cxA <;>
    cases hB : venue_check now max_age_seconds data.backpack <;>
    cases hH : venue_check now max_age_seconds data.hyperliquid <;>
    cases hC : venue_check now max_age_seconds data.coinex <;>
    simp [is_data_valid, hB, hH, hC]

/-- Witness for C3 at a concrete input: with only Backpack available, the
result is that venue's own check, evaluated here on all-fresh data. -/
theorem C3_validity_counting_witness :
    is_data_valid true false false true
      ⟨⟨some 1, some 1, some 10, some 10⟩, ⟨none, none, none, none⟩,
        ⟨none, none, none, none⟩⟩ 20 300
      = venue_check 20 300 ⟨some 1, some 1, some 10, some 10⟩ :=
  (C3_validity_counting true false false
    ⟨⟨some 1, some 1, some 10, some 10⟩, ⟨none, none, none, none⟩,
      ⟨none, none, none, none⟩⟩ 20 300).2.1 rfl rfl rfl

/-- Helper: the two-venue specialisation of the ranking rule evaluates to
Backpack-Long/Hyperliquid-Short when Backpack's weighted rate is at most
Hyperliquid's (stable sort keeps Backpack first on ties), and the opposite
assignment otherwise; the opposite-pair verdict is always `True`. -/
lemma rank2_eval (wbp whl : ℚ) :
    rank2 wbp whl =
      if wbp ≤ whl then (true, some SideT.BUY, some SideT.SELL)
      else (true, some SideT.SELL, some SideT.BUY) := by
  by_cases h : wbp ≤ whl <;>
    simp [rank2, rankAssign, sortRates, insRate, lookupSide,
      hasOppositeDirections, List.find?, h]

/-- C5 counterexample: with both venues' weighted rates negative and equal
(rate −1 on each), the two-venue ranking rule assigns Backpack Long (the
stable sort keeps the first-listed venue lowest), while the documented
sign rule (`check_direction_consistency` lines 1448-1455: larger-magnitude
venue Long, with ties falling to the `else`) assigns Backpack Short — the
per-venue preferred sides differ on this neg/neg combination. -/
theorem C5_negative_tie_counterexample :
    ((-1 : ℚ) < 0 ∧ (-1 : ℚ) < 0)
    ∧ (rank2 (-1) (-1)).2.1 = some SideT.BUY
    ∧ (funding_sides (-1) (-1)).1 = SideT.SELL := by
  refine ⟨by norm_num, ?_, ?_⟩
  · rw [rank2_eval]
    norm_num
  · norm_num [funding_sides]

/-- C5 amended: for every pair of nonzero weighted rates that is not an
exact tie of two negative rates, the two-venue specialisation of the
N-venue ranking rule produces exactly the documented sign rule's per-venue
sides; its consistency verdict is always `True`, and the sign rule's sides
are always opposite (so the documented rule's at-least-one-opposite-pair
verdict is `True` as well) — the reduction holds on all four sign
combinations except the both-negative exact tie exhibited above. -/
theorem C5_rank2_reduces_to_sign_rule (wbp whl : ℚ) (h1 : wbp ≠ 0) (h2 : whl ≠ 0)
    (h3 : ¬(wbp < 0 ∧ whl < 0 ∧ wbp = whl)) :
    (rank2 wbp whl).2.1 = some (funding_sides wbp whl).1
    ∧ (rank2 wbp whl).2.2 = some (funding_sides wbp whl).2
    ∧ (rank2 wbp whl).1 = true
    ∧ (funding_sides wbp whl).1 ≠ (funding_sides wbp whl).2 := by
  rw [rank2_eval]
  rcases lt_trichotomy wbp 0 with hb | hb | hb
  · rcases lt_trichotomy whl 0 with hh | hh | hh
    · -- both negative, not equal
      have hne : wbp ≠ whl := fun he => h3 ⟨hb, hh, he⟩
      rcases lt_or_gt_of_ne hne with hlt | hgt
      · have habs : |wbp| > |whl| := by
          rw [abs_of_neg hb, abs_of_neg hh]; linarith
        simp [funding_sides, hb, hh, habs, le_of_lt hlt]
      · have habs : ¬(|wbp| > |whl|) := by
          rw [abs_of_neg hb, abs_of_neg hh]; push_neg; linarith
        simp [funding_sides, hb, hh, habs, not_le.mpr hgt]
    · exact absurd hh h2
    · -- bp negative, hl positive
      have hle : wbp ≤ whl := by linarith
      simp [funding_sides, hle, hh, not_lt.mpr (le_of_lt hh),
        not_lt.mpr (le_of_lt hb), hb]
  · exact absurd hb h1
  · rcases lt_trichotomy whl 0 with hh | hh | hh
    · -- bp positive, hl negative
      have hle : ¬(wbp ≤ whl) := by push_neg; linarith
      simp [funding_sides, hle, not_lt.mpr (le_of_lt hb), not_lt.mpr (le_of_lt hh), hb, hh]
    · exact absurd hh h2
    · -- both positive
      by_cases hcmp : wbp ≤ whl
      · have : ¬(wbp > whl) := not_lt.mpr hcmp
        simp [funding_sides, hb, hh, hcmp, this, not_lt.mpr (le_of_lt hb), not_lt.mpr (le_of_lt hh)]
      · have hgt : wbp > whl := lt_of_not_le hcmp
        simp [funding_sides, hb, hh, hcmp, hgt, not_lt.mpr (le_of_lt hb), not_lt.mpr (le_of_lt hh)]

/-- Witness for C5 at a concrete input: rates 0.0002 and 0.0008 (both
positive, distinct). -/
theorem C5_rank2_reduces_to_sign_rule_witness :
    (rank2 0.0002 0.0008).2.1 = some (funding_sides 0.0002 0.0008).1
    ∧ (rank2 0.0002 0.0008).2.2 = some (funding_sides 0.0002 0.0008).2
    ∧ (rank2 0.0002 0.0008).1 = true
    ∧ (funding_sides 0.0002 0.0008).1 ≠ (funding_sides 0.0002 0.0008).2 :=
  C5_rank2_reduces_to_sign_rule 0.0002 0.0008 (by norm_num) (by norm_num)
    (by norm_num)

/-- Helper: when the first level of the (sorted) book alone covers the
target notional, the book walk terminates on that level with the target
fully filled, weighted price equal to the target, and that level's price as
the leaked loop variable. -/
lemma walkBook_first_level_fills (A p1 s1 : ℚ) (rest : List (ℚ × ℚ))
    (hfill : A ≤ p1 * s1) (hp1 : p1 ≠ 0) :
    walkBook A ((p1, s1) :: rest) 0 0 0 0 = .ok (A, A, p1) := by
  unfold walkBook
  rw [if_pos (by simpa using hfill), if_neg hp1]
  simp only [Except.ok.injEq, Prod.mk.injEq, true_and, and_true, sub_zero, zero_add]
  rw [mul_comm, div_mul_cancel₀ _ hp1]

/-- C6 counterexample: a book whose depth covers only half the target and a
*zero* reference price.  The claim says a zero price yields the
conservative 0.1 default, but the walk's shortfall branch (lines 632-638)
returns the fill-ratio value 0.2 before the price is ever used. -/
theorem C6_zero_price_counterexample :
    analyze_orderbook (some [.arr 1 (1/2)]) true 1 0 = 0.2
    ∧ (0.2 : ℚ) ≠ 0.1 := by
  constructor
  · norm_num [analyze_orderbook, convLevel, sortBook, sortBy, insBy, walkBook,
      slippageFromWalk, List.filterMap, List.foldr, Bind.bind, Except.bind]
  · norm_num

/-- C6 amended: behaviour of `_analyze_orderbook` on the claim's cases,
with the zero-price case corrected.  (a) A falsy or shapeless book — no
side list, an empty side list, or no recognisable levels — yields the 0.1
default.  (b) If the first level of the sorted book exactly fills the
target notional, the result is `|mid − levelPrice| / mid` as a percentage,
clamped to `[0.01, 0.5]`.  (c) If the walk fills exactly 70 % of the
target within the 10-level cap, the result is the liquidity-shortfall
value capped at 0.2 — computed *without consulting the reference price*,
which is why (d) a zero price yields the 0.1 default only on runs that
reach the final division, e.g. whenever the first level covers the target
(the zero division is raised and caught). -/
theorem C6_slippage_estimator_cases :
    ((∀ (isBids : Bool) (A price : ℚ),
        analyze_orderbook none isBids A price = 0.1
        ∧ analyze_orderbook (some []) isBids A price = 0.1)
      ∧ (∀ (levels : List OBLevel) (isBids : Bool) (A price : ℚ),
          levels ≠ [] → levels.filterMap convLevel = [] →
          analyze_orderbook (some levels) isBids A price = 0.1))
    ∧ (∀ (levels : List OBLevel) (isBids : Bool) (A price p1 s1 : ℚ)
        (rest : List (ℚ × ℚ)),
        levels ≠ [] →
        sortBook isBids (levels.filterMap convLevel) = (p1, s1) :: rest →
        p1 * s1 = A → 0 < A → 0 < price →
        analyze_orderbook (some levels) isBids A price
          = max 0.01 (min 0.5 (|price - p1| / price * 100)))
    ∧ (∀ (levels : List OBLevel) (isBids : Bool) (A price w lp : ℚ),
        levels ≠ [] → 0 < A →
        walkBook A (sortBook isBids (levels.filterMap convLevel)) 0 0 0 0
          = .ok (0.7 * A, w, lp) →
        analyze_orderbook (some levels) isBids A price = 0.2)
    ∧ (∀ (levels : List OBLevel) (isBids : Bool) (A p1 s1 : ℚ)
        (rest : List (ℚ × ℚ)),
        levels ≠ [] →
        sortBook isBids (levels.filterMap convLevel) = (p1, s1) :: rest →
        A ≤ p1 * s1 → 0 < A →
        analyze_orderbook (some levels) isBids A 0 = 0.1) := by
  refine ⟨⟨fun isBids A price => ⟨rfl, rfl⟩, ?_⟩, ?_, ?_, ?_⟩
  · intro levels isBids A price hlv hbs
    simp [analyze_orderbook, hlv, hbs]
  · -- (b) first level exactly fills
    intro levels isBids A price p1 s1 rest hlv hs hfill hA hp
    have hp1 : p1 ≠ 0 := by
      rintro rfl
      rw [zero_mul] at hfill
      exact absurd hfill.symm (ne_of_gt hA)
    have hbs : levels.filterMap convLevel ≠ [] := by
      intro h
      rw [h] at hs
      simp [sortBook, sortBy] at hs
    have hw := walkBook_first_level_fills A p1 s1 rest (le_of_eq hfill.symm) hp1
    simp only [analyze_orderbook, if_neg hlv, if_neg hbs, hs, hw]
    have havg : A / (A / p1) = p1 := by
      field_simp
    simp only [Bind.bind, Except.bind, slippageFromWalk, havg]
    rw [if_neg (by simp), if_pos hA, if_neg hp1, if_neg (ne_of_gt hp)]
    have h100 : |(100 : ℚ)| = 100 := by norm_num
    cases isBids
    · simp only [Bool.false_eq_true, if_false, if_neg]
      rw [abs_mul, abs_div, abs_of_pos hp, h100, abs_sub_comm p1 price]
    · simp only [if_true]
      rw [abs_mul, abs_div, abs_of_pos hp, h100]
  · -- (c) 70 % fill
    intro levels isBids A price w lp hlv hA hw
    have hbs : levels.filterMap convLevel ≠ [] := by
      intro h
      rw [h] at hw
      have hsb : sortBook isBids ([] : List (ℚ × ℚ)) = [] := by
        cases isBids <;> rfl
      rw [hsb] at hw
      simp only [walkBook, Except.ok.injEq, Prod.mk.injEq] at hw
      linarith [hw.1]
    simp only [analyze_orderbook, if_neg hlv, if_neg hbs, hw]
    have hAne : A ≠ 0 := ne_of_gt hA
    have hfp : 0.7 * A / A * 100 = (70 : ℚ) := by
      field_simp
      ring
    have hlt : (0.7 : ℚ) * A < A := by linarith
    simp only [Bind.bind, Except.bind, slippageFromWalk, if_neg hAne, hfp]
    rw [if_pos ⟨decide_eq_true hlt, by norm_num⟩]
    norm_num
  · -- (d) zero price with a covering first level
    intro levels isBids A p1 s1 rest hlv hs hfill hA
    have hp1 : p1 ≠ 0 := by
      rintro rfl
      rw [zero_mul] at hfill
      linarith
    have hbs : levels.filterMap convLevel ≠ [] := by
      intro h
      rw [h] at hs
      simp [sortBook, sortBy] at hs
    have hw := walkBook_first_level_fills A p1 s1 rest hfill hp1
    simp only [analyze_orderbook, if_neg hlv, if_neg hbs, hs, hw]
    simp only [Bind.bind, Except.bind, slippageFromWalk]
    rw [if_neg (by simp), if_pos hA, if_neg hp1]
    simp

/-- Witness for C6 at concrete inputs: a one-level book that exactly fills
a 200-notional target at price 100 with mid 101; an empty and a shapeless
book; a 70 %-deep book; and a covering book with zero mid. -/
theorem C6_slippage_estimator_cases_witness :
    analyze_orderbook (some [.arr 100 2]) true 200 101
      = max 0.01 (min 0.5 (|(101 : ℚ) - 100| / 101 * 100))
    ∧ analyze_orderbook none true 1 1 = 0.1
    ∧ analyze_orderbook (some [.unknown]) true 1 1 = 0.1
    ∧ analyze_orderbook (some [.arr 1 (7/10)]) false 1 5 = 0.2
    ∧ analyze_orderbook (some [.pxsz 100 2]) true 200 0 = 0.1 :=
  ⟨C6_slippage_estimator_cases.2.1 [.arr 100 2] true 200 101 100 2 []
      (by decide)
      (by norm_num [sortBook, sortBy, insBy, convLevel, List.filterMap, List.foldr])
      (by norm_num) (by norm_num) (by norm_num),
   (C6_slippage_estimator_cases.1.1 true 1 1).1,
   C6_slippage_estimator_cases.1.2 [.unknown] true 1 1 (by decide) rfl,
   C6_slippage_estimator_cases.2.2.1 [.arr 1 (7/10)] false 1 5 (7/10) 1
      (by decide) (by norm_num)
      (by norm_num [sortBook, sortBy, insBy, convLevel, List.filterMap,
        List.foldr, walkBook]),
   C6_slippage_estimator_cases.2.2.2 [.pxsz 100 2] true 200 100 2 []
      (by decide)
      (by norm_num [sortBook, sortBy, insBy, convLevel, List.filterMap, List.foldr])
      (by norm_num) (by norm_num)⟩
